import Mathlib

/-!
Shallow embedding of the groupwise weight-only quantization (WOQ) reference
computation from `tests/quantization/test_weight_only_groupwise_quant_matmul.py`
(`TestWeightOnlyGroupWiseQuantMatmul._woq_groupwise_matmul`), together with the
dtype translation helper `trt_dtype_to_torch` from `examples/blip2/summarize.py`.

Matrices are embedded as total index functions `Nat → Nat → ℚ`; the logical
dimensions (m, n, k, number of scale rows) are carried separately in the
statements, mirroring shapes in the Python source.
-/

namespace Woq

/-- A matrix, embedded as a total function from (row, column) to a rational. -/
abbrev Mat := Nat → Nat → ℚ

/-- A row vector (1 × width tensor), embedded as a function of the column. -/
abbrev Row := Nat → ℚ

/-- Python bool coerced to an integer, as in `has_bias * BIAS`. -/
def b2n (b : Bool) : Nat := if b then 1 else 0

/-- Python bool coerced into the rational arithmetic, as in `uint4_input * 8`. -/
def b2q (b : Bool) : ℚ := if b then 1 else 0

/-- Flag constant from the test body: `BIAS = 1`. -/
def BIAS : Nat := 1

/-- Flag constant from the test body: `ZERO = 2`. -/
def ZERO : Nat := 2

/-- Flag constant from the test body: `PRE_QUANT_SCALE = 4`. -/
def PRE_QUANT_SCALE : Nat := 4

/-- Flag constant from the test body: `W4A8_AWQ = 8`. -/
def W4A8_AWQ : Nat := 8

/-- The bitmask built by the test:
`quant_algo = use_w4a8_awq * W4A8_AWQ + has_pre_quant * PRE_QUANT_SCALE + has_zero * ZERO + has_bias * BIAS`. -/
def quant_algo (use_w4a8_awq has_pre_quant has_zero has_bias : Bool) : Nat :=
  b2n use_w4a8_awq * W4A8_AWQ + b2n has_pre_quant * PRE_QUANT_SCALE +
    b2n has_zero * ZERO + b2n has_bias * BIAS

/-- Whether a flag bit is set in a `quant_algo` bitmask. -/
def flagSet (qa flag : Nat) : Bool := qa &&& flag != 0

/-- Number of rows of the `scale` tensor:
`scale = _utils.woq_gen_weights((k + group_size) // group_size, n, dtype) * 2`. -/
def scale_rows (k group_size : Nat) : Nat := (k + group_size) / group_size

/-- Number of rows of the `zero` tensor when `has_zero` holds; the same
expression `(k + group_size) // group_size` appears at its construction site. -/
def zero_rows (k group_size : Nat) : Nat := (k + group_size) / group_size

/-- Ceiling division, the row count the spec asserts (`ceil(k / group_size)`). -/
def ceil_div (a b : Nat) : Nat := (a + b - 1) / b

/-- Element count of the `scale` tensor (`scale_rows × n`). -/
def scale_numel (k group_size n : Nat) : Nat := scale_rows k group_size * n

/-- Element count of the `zero` tensor: a `zero_rows × n` tensor when
`has_zero`, else the empty tensor `torch.Tensor().half()`. -/
def zero_numel (has_zero : Bool) (k group_size n : Nat) : Nat :=
  if has_zero then zero_rows k group_size * n else 0

/-- Element count of the `bias` tensor: a `1 × n` tensor when `has_bias`,
else the empty tensor. -/
def bias_numel (has_bias : Bool) (n : Nat) : Nat := if has_bias then n else 0

/-- Element count of `pre_quant_scale`: the test always allocates it as
`_utils.woq_gen_weights(1, k, dtype)`, a non-empty `1 × k` tensor, regardless
of `has_pre_quant`. -/
def pre_quant_scale_numel (k : Nat) : Nat := k

/-- Element count of `fp8_alpha`: a 1-element tensor when `use_w4a8_awq`,
else the empty tensor `torch.Tensor().float()`. -/
def fp8_alpha_numel (use_w4a8_awq : Bool) : Nat := if use_w4a8_awq then 1 else 0

/-- `S.repeat_interleave(gs, dim=0)`: output row `r` is input row `r / gs`
(for in-range indices; the embedding is total). -/
def repeat_interleave (S : Mat) (gs : Nat) : Mat := fun r c => S (r / gs) c

/-- Modelled from the spec: `_utils.woq_groupwise_extract_int4` is in the
repository's `tests/utils/_utils.py`, which is not among the supplied sources.
Per the data-model invariant "Packed weight unpacking yields exactly `k`
logical rows per `n` columns", `input_rows = qweight_int8.shape[0]` equals `k`. -/
def input_rows (k : Nat) : Nat := k

/-- `scale_ref = scale.repeat_interleave(group_size, dim=0)[input_rows, :]`.
Note the index is the bare integer `input_rows` (= `k`), not a slice
`[:input_rows]`: the code selects the single repeated row `k`, i.e. scale
row `k / group_size`, yielding a 1-D tensor of shape `(n,)` that then
broadcasts over all `k` weight rows. -/
def scale_ref (scale : Mat) (group_size k : Nat) : Row :=
  fun c => repeat_interleave scale group_size (input_rows k) c

/-- `zero_ref = zero.repeat_interleave(group_size, dim=0)[input_rows, :]`,
with the same single-row integer indexing as `scale_ref`. -/
def zero_ref (zero : Mat) (group_size k : Nat) : Row :=
  fun c => repeat_interleave zero group_size (input_rows k) c

/-- `ref_th_weight = qweight_int8.half() * scale_ref - uint4_input * 8 * scale_ref`,
followed by `ref_th_weight += zero_ref` when `has_zero`. -/
def ref_th_weight (qweight_int8 scale zero : Mat)
    (uint4_input has_zero : Bool) (group_size k : Nat) : Mat :=
  fun r c =>
    qweight_int8 r c * scale_ref scale group_size k c -
      b2q uint4_input * 8 * scale_ref scale group_size k c +
      (if has_zero then zero_ref zero group_size k c else 0)

/-- `activation = torch.zeros_like(activation)`: the test overwrites the
activation with an all-zero matrix before running plugin and reference. -/
def zeros_like (_A : Mat) : Mat := fun _ _ => 0

/-- `bias = torch.ones_like(bias)`: when `has_bias` the `1 × n` bias becomes
all ones; when `has_bias` is false, `bias` is the empty tensor and
`ones_like` of an empty tensor is still empty (no bias term). -/
def ones_like_bias (has_bias : Bool) : Option Row :=
  if has_bias then some (fun _ => 1) else none

/-- `if use_w4a8_awq: activation *= fp8_alpha` — the W4A8 alpha scaling step. -/
def alpha_scaled (A : Mat) (use_w4a8_awq : Bool) (alpha : ℚ) : Mat :=
  if use_w4a8_awq then fun i r => A i r * alpha else A

/-- `if has_pre_quant: activation = torch.mul(activation, pre_quant_scale.repeat(m, 1))`
— the pre-quant scale multiplied elementwise, broadcast over the m rows. -/
def pre_quant_scaled (A : Mat) (has_pre_quant : Bool) (pqs : Row) : Mat :=
  if has_pre_quant then fun i r => A i r * pqs r else A

/-- Modelled from the spec: `_utils.woq_groupwise_gt_matmul` is in the
repository's `tests/utils/_utils.py`, which is not among the supplied sources.
Per §4.4, `Output[i,j] = sum_r(Activation'[i,r] * DequantWeight[r,j]) + Bias[j]`
where `Bias[j]` is 0 when the bias is absent. -/
def woq_groupwise_gt_matmul (A W : Mat) (k : Nat) (bias : Option Row) : Mat :=
  fun i j =>
    (∑ r ∈ Finset.range k, A i r * W r j) +
      (match bias with
       | some b => b j
       | none => 0)

/-- The whole reference path of `_woq_groupwise_matmul` (source lines 166–189):
dequantized reference weight, activation zeroing, bias overwrite, optional
alpha scaling, optional pre-quant scaling, and the ground-truth matmul. -/
def ref_output (activation pre_quant_scale qweight_int8 scale zero : Mat)
    (alpha : ℚ) (uint4_input has_pre_quant has_zero has_bias use_w4a8_awq : Bool)
    (group_size k : Nat) : Mat :=
  let W := ref_th_weight qweight_int8 scale zero uint4_input has_zero group_size k
  let act0 := zeros_like activation
  let act1 := alpha_scaled act0 use_w4a8_awq alpha
  let act2 := pre_quant_scaled act1 has_pre_quant (fun c => pre_quant_scale 0 c)
  woq_groupwise_gt_matmul act2 W k (ones_like_bias has_bias)

end Woq

namespace Blip2

/-- The TensorRT dtypes distinguished by `trt_dtype_to_torch` in
`examples/blip2/summarize.py`, plus further members of `trt.DataType`
that fall into its `else` branch. -/
inductive TrtDType where
  | float16
  | float32
  | int32
  | int8
  | uint8
  | boolean
  | bfloat16
  | fp8
  deriving DecidableEq, Repr

/-- The torch dtypes appearing as results of `trt_dtype_to_torch`. -/
inductive TorchDType where
  | float16
  | float32
  | int32
  deriving DecidableEq, Repr

/-- `trt_dtype_to_torch`: maps the three supported TensorRT dtypes to their
torch counterparts and raises `TypeError("%s is not supported" % dtype)`
for everything else, embedded as `Except`. -/
def trt_dtype_to_torch : TrtDType → Except String TorchDType
  | .float16 => .ok .float16
  | .float32 => .ok .float32
  | .int32 => .ok .int32
  | _ => .error "is not supported"

end Blip2

namespace Woq

/-- Helper: after the overwrite `activation = torch.zeros_like(activation)`,
the alpha-scaled, pre-quant-scaled activation is still identically zero. -/
theorem processed_zero_activation (act : Mat) (pqs : Row) (alpha : ℚ)
    (has_pre_quant use_w4a8_awq : Bool) (i r : Nat) :
    pre_quant_scaled (alpha_scaled (zeros_like act) use_w4a8_awq alpha)
      has_pre_quant pqs i r = 0 := by
  cases use_w4a8_awq <;> cases has_pre_quant <;>
    simp [pre_quant_scaled, alpha_scaled, zeros_like]

/-- Concrete unpacked weight for the C1 evaluation: all entries 1. -/
def c1_q : Mat := fun _ _ => 1

/-- Concrete scale for the C1 evaluation (k = 16, group_size = 8, so
`scale_rows 16 8 = 3` rows): rows 0 and 1 hold 1, row 2 holds 3. -/
def c1_scale : Mat := fun r _ => if r = 2 then 3 else 1

/-- Concrete zero tensor for the C1 evaluation: rows 0 and 1 hold 0,
row 2 holds 10. -/
def c1_zero : Mat := fun r _ => if r = 2 then 10 else 0

/-- C1 (code_bug evaluation): with k = 16, group_size = 8, uint4_input and a
zero tensor present, the code's reference weight at (r,c) = (0,0) is
`-11`: it uses scale row `input_rows / group_size = 16 / 8 = 2` (value 3) and
zero row 2 (value 10) for every weight row, because
`repeat_interleave(...)[input_rows, :]` indexes the single repeated row
`input_rows = k` rather than slicing `[:input_rows, :]`. The value the claim
mandates — `unpacked[0,0] * Scale[0 // 8, 0] - 8 * Scale[0 // 8, 0] +
Zero[0 // 8, 0]` — is `-7`. -/
theorem C1_code_eval :
    ref_th_weight c1_q c1_scale c1_zero true true 8 16 0 0 = -11 ∧
    c1_q 0 0 * c1_scale (0 / 8) 0 - 8 * c1_scale (0 / 8) 0 + c1_zero (0 / 8) 0
      = -7 := by
  constructor
  · norm_num [ref_th_weight, scale_ref, zero_ref, repeat_interleave,
      input_rows, b2q, c1_q, c1_scale, c1_zero]
  · norm_num [c1_q, c1_scale, c1_zero]

/-- C2 (confirmed): for every parameter combination and all input tensors,
the reference output of `_woq_groupwise_matmul` equals 1 when `has_bias` and
0 otherwise, independent of weight, scale, zero, alpha and pre-quant-scale:
lines 175–176 overwrite the activation with zeros and the bias with ones
before the plugin run and the reference computation. -/
theorem C2_reference_is_bias_indicator
    (activation pre_quant_scale qweight_int8 scale zero : Mat) (alpha : ℚ)
    (uint4_input has_pre_quant has_zero has_bias use_w4a8_awq : Bool)
    (group_size k i j : Nat) :
    ref_output activation pre_quant_scale qweight_int8 scale zero alpha
        uint4_input has_pre_quant has_zero has_bias use_w4a8_awq group_size k
        i j
      = if has_bias then 1 else 0 := by
  unfold ref_output woq_groupwise_gt_matmul
  cases has_bias <;>
    simp [ones_like_bias, processed_zero_activation]

/-- C7 (confirmed): in the Scenario-1 geometry (m = 1, n = 1024, k = 64,
group_size = 64) with bias present, the reference output row 0 is exactly the
(forced all-ones) bias row at every column: the zeroed activation nullifies
the weight contribution. -/
theorem C7_scenario1_output_is_bias_row
    (activation pre_quant_scale qweight_int8 scale zero : Mat) (alpha : ℚ)
    (uint4_input has_pre_quant has_zero use_w4a8_awq : Bool) :
    (∀ j, ref_output activation pre_quant_scale qweight_int8 scale zero alpha
        uint4_input has_pre_quant has_zero true use_w4a8_awq 64 64 0 j = 1) ∧
    ones_like_bias true = some (fun _ => 1) := by
  constructor
  · intro j
    unfold ref_output woq_groupwise_gt_matmul
    simp [ones_like_bias, processed_zero_activation]
  · rfl

/-- Concrete scale for the C8 evaluation (k = 64, group_size = 64, so
`scale_rows 64 64 = 2` rows): row 0 holds 5, row 1 holds 7. -/
def c8_scale : Mat := fun r _ => if r = 1 then 7 else 5

/-- C8 (code_bug evaluation): with k = 64, group_size = 64, two scale rows are
allocated (`scale_rows 64 64 = 2`); every weight row r < 64 maps to group
`r / 64 = 0` (value 5), and the excess allocated row 1 should be unused — yet
the code's single scale lookup `scale_ref` reads repeated row
`input_rows = 64`, i.e. scale row `64 / 64 = 1` (value 7), so the excess row
is the one actually used for every weight row. -/
theorem C8_code_eval :
    scale_rows 64 64 = 2 ∧
    (0 : Nat) / 64 = 0 ∧ (63 : Nat) / 64 = 0 ∧
    c8_scale ((63 : Nat) / 64) 0 = 5 ∧
    scale_ref c8_scale 64 64 0 = 7 := by
  refine ⟨by decide, by decide, by decide, ?_, ?_⟩
  · norm_num [c8_scale]
  · norm_num [scale_ref, repeat_interleave, input_rows, c8_scale]

/-- C3 counterexample: at k = 64, group_size = 64 the test allocates
`scale_rows 64 64 = (64 + 64) / 64 = 2` scale rows, while the claim asserts
`ceil(64 / 64) = 1` rows. -/
theorem C3_counterexample :
    scale_rows 64 64 = 2 ∧ ceil_div 64 64 = 1 ∧
    scale_rows 64 64 ≠ ceil_div 64 64 := by decide

/-- C3 (corrected): for group_size > 0 the scale tensor has
`(k + group_size) / group_size = k / group_size + 1` rows (and n columns,
`scale_numel = scale_rows * n`); the zero tensor, when present, is allocated
with the same row count; the row count agrees with `ceil(k / group_size)`
exactly when group_size does not divide k. -/
theorem C3_scale_rows_floor_plus_one (k gs n : Nat) (hgs : 0 < gs) :
    scale_rows k gs = k / gs + 1 ∧
    zero_rows k gs = scale_rows k gs ∧
    scale_numel k gs n = scale_rows k gs * n ∧
    (¬ gs ∣ k → scale_rows k gs = ceil_div k gs) := by
  refine ⟨Nat.add_div_right k hgs, rfl, rfl, ?_⟩
  intro hnd
  have hk : k ≠ 0 := by
    rintro rfl
    exact hnd (dvd_zero gs)
  obtain ⟨p, rfl⟩ := Nat.exists_eq_succ_of_ne_zero hk
  unfold scale_rows ceil_div
  have h1 : p + 1 + gs - 1 = p + gs := by omega
  rw [h1, Nat.add_div_right p hgs, Nat.add_div_right (p + 1) hgs,
    Nat.succ_div_of_not_dvd hnd]

/-- C3 witness: k = 256, group_size = 192, n = 8 — a case where group_size
does not divide k, so the allocated row count agrees with the ceiling. -/
theorem C3_witness :
    scale_rows 256 192 = 256 / 192 + 1 ∧ scale_rows 256 192 = ceil_div 256 192 :=
  ⟨(C3_scale_rows_floor_plus_one 256 192 8 (by decide)).1,
   (C3_scale_rows_floor_plus_one 256 192 8 (by decide)).2.2.2 (by decide)⟩

/-- Helper: the four flag bits of `quant_algo` decode to the four booleans. -/
theorem quant_algo_flag_bits (use_w4a8_awq has_pre_quant has_zero has_bias : Bool) :
    flagSet (quant_algo use_w4a8_awq has_pre_quant has_zero has_bias) BIAS
        = has_bias ∧
    flagSet (quant_algo use_w4a8_awq has_pre_quant has_zero has_bias) ZERO
        = has_zero ∧
    flagSet (quant_algo use_w4a8_awq has_pre_quant has_zero has_bias)
        PRE_QUANT_SCALE = has_pre_quant ∧
    flagSet (quant_algo use_w4a8_awq has_pre_quant has_zero has_bias) W4A8_AWQ
        = use_w4a8_awq := by
  cases use_w4a8_awq <;> cases has_pre_quant <;> cases has_zero <;>
    cases has_bias <;> decide

/-- Helper: the allocated scale always has at least one row when the group
size is positive. -/
theorem scale_rows_pos (k gs : Nat) (hgs : 0 < gs) : 0 < scale_rows k gs :=
  Nat.div_pos (Nat.le_add_left gs k) hgs

/-- C4 counterexample: with use_w4a8_awq = false, has_pre_quant = false,
has_zero = true, has_bias = true and k = 64, the PRE_QUANT_SCALE flag is not
set in `quant_algo`, yet the pre-quant-scale tensor is allocated non-empty
(1 × 64) — the claimed flag-iff-non-empty equivalence fails, and no check
fails fast on this mismatch. -/
theorem C4_counterexample :
    flagSet (quant_algo false false true true) PRE_QUANT_SCALE = false ∧
    pre_quant_scale_numel 64 ≠ 0 := by decide

/-- C4 (corrected): the BIAS, ZERO and W4A8_AWQ flags are each set in
`quant_algo` iff the corresponding tensor (bias, zero, fp8_alpha) is
non-empty; the PRE_QUANT_SCALE flag equals `has_pre_quant`, but the
pre-quant-scale tensor is always allocated non-empty (1 × k), so its
flag does not track tensor emptiness and the mismatch is accepted silently
(the reference merely skips the pre-quant multiplication when the flag is
unset). -/
theorem C4_flag_tensor_consistency
    (use_w4a8_awq has_pre_quant has_zero has_bias : Bool) (k gs n : Nat)
    (hk : 0 < k) (hgs : 0 < gs) (hn : 0 < n) :
    (flagSet (quant_algo use_w4a8_awq has_pre_quant has_zero has_bias) BIAS
        = has_bias) ∧
    (flagSet (quant_algo use_w4a8_awq has_pre_quant has_zero has_bias) ZERO
        = has_zero) ∧
    (flagSet (quant_algo use_w4a8_awq has_pre_quant has_zero has_bias)
        PRE_QUANT_SCALE = has_pre_quant) ∧
    (flagSet (quant_algo use_w4a8_awq has_pre_quant has_zero has_bias)
        W4A8_AWQ = use_w4a8_awq) ∧
    ((bias_numel has_bias n ≠ 0) ↔ has_bias = true) ∧
    ((zero_numel has_zero k gs n ≠ 0) ↔ has_zero = true) ∧
    ((fp8_alpha_numel use_w4a8_awq ≠ 0) ↔ use_w4a8_awq = true) ∧
    pre_quant_scale_numel k ≠ 0 := by
  obtain ⟨h1, h2, h3, h4⟩ :=
    quant_algo_flag_bits use_w4a8_awq has_pre_quant has_zero has_bias
  have hz : zero_rows k gs * n ≠ 0 :=
    Nat.mul_ne_zero (scale_rows_pos k gs hgs).ne' hn.ne'
  refine ⟨h1, h2, h3, h4, ?_, ?_, ?_, hk.ne'⟩
  · cases has_bias <;> simp [bias_numel, hn.ne']
  · cases has_zero <;> simp [zero_numel, hz]
  · cases use_w4a8_awq <;> simp [fp8_alpha_numel]

/-- C4 witness: the flag decode and tensor-emptiness facts at the concrete
test configuration use_w4a8_awq = false, has_pre_quant = false,
has_zero = true, has_bias = true, k = 64, group_size = 64, n = 1024. -/
theorem C4_witness :
    flagSet (quant_algo false false true true) ZERO = true ∧
    ((zero_numel true 64 64 1024 ≠ 0) ↔ true = true) ∧
    pre_quant_scale_numel 64 ≠ 0 := by
  obtain ⟨_, hz, _, _, _, hzn, _, hpq⟩ :=
    C4_flag_tensor_consistency false false true true 64 64 1024
      (by decide) (by decide) (by decide)
  exact ⟨hz, hzn, hpq⟩

/-- C5 (confirmed): in the reference, W4A8 alpha scaling is applied to the
activation before the pre-quant-scale multiplication (the flagged pipeline
equals pre-quant scaling of the already alpha-multiplied activation); with
the flag unset, alpha is not applied — the activation and hence the matmul
output coincide with the unscaled case for any alpha values. -/
theorem C5_alpha_scaling_order
    (A W : Mat) (alpha alpha2 : ℚ) (pqs : Row) (has_pre_quant : Bool)
    (k : Nat) (bias : Option Row) :
    (pre_quant_scaled (alpha_scaled A true alpha) has_pre_quant pqs
        = pre_quant_scaled (fun i r => A i r * alpha) has_pre_quant pqs) ∧
    (alpha_scaled A false alpha = A) ∧
    (woq_groupwise_gt_matmul
        (pre_quant_scaled (alpha_scaled A false alpha) has_pre_quant pqs) W k
        bias
      = woq_groupwise_gt_matmul
        (pre_quant_scaled (alpha_scaled A false alpha2) has_pre_quant pqs) W k
        bias) := by
  refine ⟨by simp [alpha_scaled], by simp [alpha_scaled], by simp [alpha_scaled]⟩

/-- C6 (confirmed): the reference output is the sum-product of the processed
activation with the dequantized reference weight plus the (forced) bias term,
which is 0 when the bias is absent; and for the ground-truth matmul, running
with a bias equals running without it plus the bias broadcast over rows. -/
theorem C6_matmul_formula_and_bias_additivity
    (activation pre_quant_scale qweight_int8 scale zero A W : Mat)
    (alpha : ℚ)
    (uint4_input has_pre_quant has_zero has_bias use_w4a8_awq : Bool)
    (group_size k i j : Nat) (b : Row) :
    (ref_output activation pre_quant_scale qweight_int8 scale zero alpha
        uint4_input has_pre_quant has_zero has_bias use_w4a8_awq group_size k
        i j
      = (∑ r ∈ Finset.range k,
          pre_quant_scaled
              (alpha_scaled (zeros_like activation) use_w4a8_awq alpha)
              has_pre_quant (fun c => pre_quant_scale 0 c) i r *
            ref_th_weight qweight_int8 scale zero uint4_input has_zero
              group_size k r j) +
        (if has_bias then 1 else 0)) ∧
    (woq_groupwise_gt_matmul A W k (some b) i j
      = (∑ r ∈ Finset.range k, A i r * W r j) + b j) ∧
    (woq_groupwise_gt_matmul A W k none i j
      = ∑ r ∈ Finset.range k, A i r * W r j) ∧
    (woq_groupwise_gt_matmul A W k (some b) i j
      = woq_groupwise_gt_matmul A W k none i j + b j) := by
  refine ⟨?_, rfl, by simp [woq_groupwise_gt_matmul], by
    simp [woq_groupwise_gt_matmul]⟩
  unfold ref_output woq_groupwise_gt_matmul
  cases has_bias <;> simp [ones_like_bias]

/-- Concrete activation for the C9 counterexample: the 1 × 2 all-ones row. -/
def c9_A : Mat := fun _ _ => 1

/-- Concrete per-input-channel scale for the C9 counterexample: s = (2, 1). -/
def c9_s : Row := fun r => if r = 0 then 2 else 1

/-- Concrete 2 × 2 weight for the C9 counterexample: W[0,1] = 1, rest 0. -/
def c9_W : Mat := fun r c => if r = 0 ∧ c = 1 then 1 else 0

/-- C9 counterexample: with A the 1 × 2 ones row, s = (2,1) and W having its
only non-zero entry W[0,1] = 1, `matmul(A * s, W)[0,1] = 2` while
`(matmul(A, W) * s)[0,1] = 1`, refuting the claimed identity. -/
theorem C9_counterexample :
    ¬ (woq_groupwise_gt_matmul (fun i r => c9_A i r * c9_s r) c9_W 2 none 0 1
        = woq_groupwise_gt_matmul c9_A c9_W 2 none 0 1 * c9_s 1) := by
  simp [woq_groupwise_gt_matmul, c9_A, c9_s, c9_W, Finset.sum_range_succ]

/-- C9 (corrected): the per-input-channel scale commutes onto the rows of the
weight, not onto the output columns:
`matmul(A * s, W) = matmul(A, s·W)` where `(s·W)[r,c] = s[r] * W[r,c]`. -/
theorem C9_prescale_moves_to_weight_rows
    (A W : Mat) (s : Row) (k i j : Nat) (bias : Option Row) :
    woq_groupwise_gt_matmul (fun i r => A i r * s r) W k bias i j
      = woq_groupwise_gt_matmul A (fun r c => s r * W r c) k bias i j := by
  unfold woq_groupwise_gt_matmul
  congr 1
  exact Finset.sum_congr rfl (fun r _ => by ring)

/-- C10 (confirmed): `trt_dtype_to_torch` maps trt.float16 to torch.float16,
trt.float32 to torch.float32, trt.int32 to torch.int32, and raises TypeError
(embedded as `Except.error`) for every other dtype. -/
theorem C10_trt_dtype_to_torch_spec :
    Blip2.trt_dtype_to_torch .float16 = .ok .float16 ∧
    Blip2.trt_dtype_to_torch .float32 = .ok .float32 ∧
    Blip2.trt_dtype_to_torch .int32 = .ok .int32 ∧
    ∀ d : Blip2.TrtDType, d ≠ .float16 → d ≠ .float32 → d ≠ .int32 →
      ∃ msg, Blip2.trt_dtype_to_torch d = .error msg := by
  refine ⟨rfl, rfl, rfl, ?_⟩
  intro d h1 h2 h3
  cases d
  · exact absurd rfl h1
  · exact absurd rfl h2
  · exact absurd rfl h3
  all_goals exact ⟨"is not supported", rfl⟩

/-- C10 witness: the unsupported dtype trt.int8 yields an error. -/
theorem C10_witness :
    ∃ msg, Blip2.trt_dtype_to_torch .int8 = .error msg :=
  C10_trt_dtype_to_torch_spec.2.2.2 .int8 (by decide) (by decide) (by decide)

end Woq
